import Mathlib

/-!
# Verification of the Q&A backend specification

Shallow embedding of the Q&A web backend (Django/DRF application with a
REST API over Users, Questions and Answers).  The repository's visible
source is `api/urls.py` (route table) and `api/tests/test_user_api.py`
(behavioural tests); the view, model and serializer modules are not part
of the visible source, so the domain operations below are modelled from
the specification, as indicated in each doc comment.  The route table is
embedded directly from `api/urls.py`.
-/

namespace QuotaClone

/-- A user account record, as described by the spec data model:
unique id, unique email, unique username, a stored password hash
(never serialized out), and first/last name. -/
structure User where
  id : Nat
  email : String
  username : String
  passwordHash : String
  firstName : String
  lastName : String
deriving Repr, DecidableEq

/-- A question, owned by a user and identified by a unique slug. -/
structure Question where
  slug : String
  title : String
  body : String
  ownerId : Nat
deriving Repr, DecidableEq

/-- An answer: identified by UUID, owned by a user, attached to a
question by slug, carrying the like-set as a list of user ids. -/
structure Answer where
  uuid : String
  body : String
  ownerId : Nat
  questionSlug : String
  likes : List Nat
deriving Repr, DecidableEq

/-- The relational store: users, questions, answers and the follow
graph (directed edges follower-id to followee-id). -/
structure Store where
  users : List User
  questions : List Question
  answers : List Answer
  follows : List (Nat × Nat)
deriving Repr, DecidableEq

/-- Serialized field values appearing in response bodies. -/
inductive FieldValue where
  | str : String → FieldValue
  | num : Nat → FieldValue
  | bool : Bool → FieldValue
  | strList : List String → FieldValue
deriving Repr, DecidableEq

/-- An HTTP response: status code and body as key/value pairs. -/
structure Response where
  status : Nat
  body : List (String × FieldValue)
deriving Repr, DecidableEq

/-- Modelled from the spec: the salted password hashing used by the
User Store ("password (stored as salted hash ...)"); the concrete hash
function is framework code absent from the visible source, so it is
abstracted as an injective tagging of the plaintext. -/
def hashPassword (p : String) : String :=
  "pbkdf2_sha256$" ++ p

/-- Modelled from the spec: password verification against the stored
hash ("stored hash verifies against plaintext"). -/
def checkPassword (stored plain : String) : Bool :=
  stored == hashPassword plain

/-- Next fresh user id: one more than the largest id in the store. -/
def nextId (s : Store) : Nat :=
  s.users.foldl (fun m u => max m u.id) 0 + 1

/-- Modelled from the spec: `signup(email, password, username, …) ->
User | ValidationError` — the signup view/serializer is absent from the
visible source.  Fails with 400 if the email or username is already
registered or the password is shorter than 5 characters (minimum length
per observed test); otherwise persists the user with a hashed password
and returns 201 with a body that never includes the password. -/
def signup (s : Store) (email password username firstName lastName : String) :
    Response × Store :=
  if s.users.any (fun u => u.email == email) ||
     s.users.any (fun u => u.username == username) then
    ({ status := 400, body := [("detail", .str "user already exists")] }, s)
  else if password.length < 5 then
    ({ status := 400, body := [("detail", .str "password too short")] }, s)
  else
    let uid := nextId s
    let u : User :=
      { id := uid, email := email, username := username
        passwordHash := hashPassword password
        firstName := firstName, lastName := lastName }
    ({ status := 201
       body := [("email", .str email), ("username", .str username),
                ("id", .num uid), ("firstName", .str firstName),
                ("lastName", .str lastName)] },
     { s with users := s.users ++ [u] })

/-- Modelled from the spec: the access token issued at signin; token
construction is framework code absent from the visible source. -/
def accessToken (u : User) : String :=
  "access$" ++ u.email

/-- Modelled from the spec: the refresh token issued at signin. -/
def refreshToken (u : User) : String :=
  "refresh$" ++ u.email

/-- Modelled from the spec: `signin(email, password) -> {access,
refresh} | AuthError` — the signin view is absent from the visible
source.  Blank password fails field validation first with 400 (the
observed test posts a blank password for an unregistered email and
still receives 400); unknown email or wrong password give 401; correct
credentials give 200 with both tokens.  Signin never mutates the
store. -/
def signin (s : Store) (email password : String) : Response :=
  if password == "" then
    { status := 400, body := [("detail", .str "password may not be blank")] }
  else
    match s.users.find? (fun u => u.email == email) with
    | none => { status := 401, body := [("detail", .str "no active account")] }
    | some u =>
      if checkPassword u.passwordHash password then
        { status := 200
          body := [("access", .str (accessToken u)),
                   ("refresh", .str (refreshToken u))] }
      else
        { status := 401, body := [("detail", .str "no active account")] }

/-- Slugs of the questions owned by a user, in store order. -/
def questionSlugsOf (s : Store) (uid : Nat) : List String :=
  (s.questions.filter (fun q => q.ownerId == uid)).map (fun q => q.slug)

/-- UUIDs of the answers owned by a user, in store order. -/
def answerUuidsOf (s : Store) (uid : Nat) : List String :=
  (s.answers.filter (fun a => a.ownerId == uid)).map (fun a => a.uuid)

/-- Modelled from the spec: the user-detail serialization `{username,
email, id, firstName, lastName, questions: [...], answers: [...]}` —
the serializer module is absent from the visible source. -/
def userDetailBody (s : Store) (u : User) : List (String × FieldValue) :=
  [("username", .str u.username), ("email", .str u.email),
   ("id", .num u.id), ("firstName", .str u.firstName),
   ("lastName", .str u.lastName),
   ("questions", .strList (questionSlugsOf s u.id)),
   ("answers", .strList (answerUuidsOf s u.id))]

/-- Modelled from the spec: the profile serialization, the same shape
minus the nested questions/answers. -/
def profileBody (u : User) : List (String × FieldValue) :=
  [("username", .str u.username), ("email", .str u.email),
   ("id", .num u.id), ("firstName", .str u.firstName),
   ("lastName", .str u.lastName)]

/-- Modelled from the spec: `getDetail(username) -> UserPublicView`,
gated by authentication (missing/invalid token gives 401); the view is
absent from the visible source.  `auth` is the authenticated caller's
id, `none` when unauthenticated. -/
def getUserDetail (s : Store) (auth : Option Nat) (username : String) :
    Response :=
  match auth with
  | none => { status := 401, body := [] }
  | some _ =>
    match s.users.find? (fun u => u.username == username) with
    | none => { status := 404, body := [("detail", .str "not found")] }
    | some u => { status := 200, body := userDetailBody s u }

/-- Modelled from the spec: `getProfile(currentUser) ->
UserPublicView`, 401 if unauthenticated; the view is absent from the
visible source. -/
def getProfile (s : Store) (auth : Option Nat) : Response :=
  match auth with
  | none => { status := 401, body := [] }
  | some uid =>
    match s.users.find? (fun u => u.id == uid) with
    | none => { status := 401, body := [] }
    | some u => { status := 200, body := profileBody u }

/-- Modelled from the spec: `follow(currentUser, targetUsername) ->
200 OK`, an idempotent add of the edge currentUser→target; the view is
absent from the visible source.  Unknown target username gives 404.
Self-follow is rejected with 400, following the spec's data-model
invariant ("a follow edge cannot target oneself") and its recommended
explicit rejection. -/
def follow (s : Store) (curId : Nat) (target : String) : Response × Store :=
  match s.users.find? (fun u => u.username == target) with
  | none => ({ status := 404, body := [("detail", .str "not found")] }, s)
  | some t =>
    if t.id == curId then
      ({ status := 400, body := [("detail", .str "cannot follow yourself")] }, s)
    else if s.follows.contains (curId, t.id) then
      ({ status := 200, body := [("detail", .str "following")] }, s)
    else
      ({ status := 200, body := [("detail", .str "following")] },
       { s with follows := s.follows ++ [(curId, t.id)] })

/-- Modelled from the spec: `unfollow(currentUser, targetUsername) ->
204 No Content`, idempotent removal that succeeds even when the edge is
absent; the view is absent from the visible source.  Unknown target
username gives 404. -/
def unfollow (s : Store) (curId : Nat) (target : String) : Response × Store :=
  match s.users.find? (fun u => u.username == target) with
  | none => ({ status := 404, body := [("detail", .str "not found")] }, s)
  | some t =>
    ({ status := 204, body := [] },
     { s with follows := s.follows.filter (fun e => e ≠ (curId, t.id)) })

/-- Replace the like-set of every answer bearing the given UUID. -/
def setLikes (s : Store) (uuid : String) (likes : List Nat) : Store :=
  { s with answers :=
      s.answers.map (fun a => if a.uuid == uuid then { a with likes := likes } else a) }

/-- Modelled from the spec: `toggleLike(uuid, user) -> {liked: bool,
likeCount: int}` — the `AnswerLikeAPIView` registered in `api/urls.py`
is absent from the visible source.  Adds the user to the like-set if
absent, removes them if present; unknown UUID gives 404. -/
def toggleLike (s : Store) (uuid : String) (userId : Nat) : Response × Store :=
  match s.answers.find? (fun a => a.uuid == uuid) with
  | none => ({ status := 404, body := [("detail", .str "not found")] }, s)
  | some a =>
    if a.likes.contains userId then
      let newLikes := a.likes.filter (fun x => x ≠ userId)
      ({ status := 200
         body := [("liked", .bool false), ("likeCount", .num newLikes.length)] },
       setLikes s uuid newLikes)
    else
      let newLikes := a.likes ++ [userId]
      ({ status := 200
         body := [("liked", .bool true), ("likeCount", .num newLikes.length)] },
       setLikes s uuid newLikes)

/-- Modelled from the spec: question creation keyed by unique slug;
the `QuestionViewSet` registered in `api/urls.py` is absent from the
visible source.  Duplicate slug fails with 400. -/
def createQuestion (s : Store) (slug title body : String) (ownerId : Nat) :
    Response × Store :=
  if s.questions.any (fun q => q.slug == slug) then
    ({ status := 400, body := [("detail", .str "slug already exists")] }, s)
  else
    ({ status := 201, body := [("slug", .str slug), ("title", .str title)] },
     { s with questions := s.questions ++ [{ slug := slug, title := title
                                             body := body, ownerId := ownerId }] })

/-- Modelled from the spec: `createAnswer(slug, body, owner) -> Answer`
— requires an existing question, assigns a fresh UUID (passed in here,
since UUID generation is external); the `AnswerCreateAPIView` registered
in `api/urls.py` is absent from the visible source. -/
def createAnswer (s : Store) (slug bodyText : String) (ownerId : Nat)
    (uuid : String) : Response × Store :=
  if s.questions.any (fun q => q.slug == slug) then
    ({ status := 201, body := [("uuid", .str uuid), ("body", .str bodyText)] },
     { s with answers := s.answers ++ [{ uuid := uuid, body := bodyText
                                         ownerId := ownerId
                                         questionSlug := slug, likes := [] }] })
  else
    ({ status := 404, body := [("detail", .str "question not found")] }, s)

/-- The data-model invariants stated by the spec: unique emails and
usernames across users, every answer references an existing question,
no self-follow edge, and like-sets contain no duplicate users. -/
def Inv (s : Store) : Prop :=
  (s.users.map (fun u => u.email)).Nodup ∧
  (s.users.map (fun u => u.username)).Nodup ∧
  (∀ a ∈ s.answers, ∃ q ∈ s.questions, q.slug = a.questionSlug) ∧
  (∀ e ∈ s.follows, e.1 ≠ e.2) ∧
  (∀ a ∈ s.answers, a.likes.Nodup)

instance (s : Store) : Decidable (Inv s) := by
  unfold Inv; infer_instance

/-! ## Route table, embedded from `api/urls.py`

`api/urls.py` registers the `questions` router at the root and four
explicit paths: `questions-answers/<slug:slug>/`,
`questions-new-answer/<slug:slug>/`, `answers-detail/<uuid:uuid>/` and
`answers-like/<uuid:uuid>/`.  Django's `slug` path converter matches
`[-a-zA-Z0-9_]+` and its `uuid` converter matches
`[0-9a-f]{8}-[0-9a-f]{4}-[0-9a-f]{4}-[0-9a-f]{4}-[0-9a-f]{12}`
(lowercase hex); a segment that does not match the converter makes the
pattern fail, so the request falls through and is rejected as not
found. -/

/-- A character allowed by Django's `slug` path converter:
ASCII letter, digit, hyphen or underscore. -/
def isSlugChar (c : Char) : Bool :=
  (('a' ≤ c && c ≤ 'z') || ('A' ≤ c && c ≤ 'Z') ||
   ('0' ≤ c && c ≤ '9') || c == '-' || c == '_')

/-- A string matched by Django's `slug` path converter:
nonempty, all characters slug characters. -/
def isSlugStr (x : String) : Bool :=
  !(x.toList.isEmpty) && x.toList.all isSlugChar

/-- A lowercase hexadecimal digit, as in Django's `uuid` converter. -/
def isLowerHex (c : Char) : Bool :=
  ('0' ≤ c && c ≤ '9') || ('a' ≤ c && c ≤ 'f')

/-- A string matched by Django's `uuid` path converter: 36 characters,
hyphens exactly at positions 8, 13, 18 and 23, lowercase hex digits
everywhere else. -/
def isUuidStr (x : String) : Bool :=
  let cs := x.toList
  cs.length == 36 &&
  (List.range 36).all (fun i =>
    if i == 8 || i == 13 || i == 18 || i == 23 then
      cs.getD i ' ' == '-'
    else
      isLowerHex (cs.getD i ' '))

/-- The handlers reachable through `api/urls.py`: the `questions`
router, and the four answer views, each carrying its parsed path
argument. -/
inductive Handler where
  | questionRoutes : Handler
  | answerList : String → Handler
  | answerCreate : String → Handler
  | answerDetail : String → Handler
  | answerLike : String → Handler
deriving Repr, DecidableEq

/-- The URL dispatch of `api/urls.py` over a path split into segments
(trailing slash stripped).  Paths whose first segment is `questions`
go to the registered router; the four explicit patterns dispatch only
when their single dynamic segment matches the declared path converter;
everything else is not found. -/
def route (segs : List String) : Option Handler :=
  if segs.headD "" == "questions" then some .questionRoutes
  else
    match segs with
    | [p, s] =>
      if p == "questions-answers" then
        (if isSlugStr s then some (.answerList s) else none)
      else if p == "questions-new-answer" then
        (if isSlugStr s then some (.answerCreate s) else none)
      else if p == "answers-detail" then
        (if isUuidStr s then some (.answerDetail s) else none)
      else if p == "answers-like" then
        (if isUuidStr s then some (.answerLike s) else none)
      else none
    | _ => none

/-! ## Sample data used by witnesses -/

/-- The empty store. -/
def emptyStore : Store :=
  { users := [], questions := [], answers := [], follows := [] }

/-! ## Claims -/

/-- C1: for every signup request with a fresh (unregistered) email and
username and a password of length at least 5, the operation returns
status 201, the response body contains no password field, and the
persisted user's stored password hash verifies against the submitted
plaintext password. -/
theorem signup_fresh_success (s : Store) (email pw un fn ln : String)
    (hem : s.users.any (fun u => u.email == email) = false)
    (hun : s.users.any (fun u => u.username == un) = false)
    (hpw : 5 ≤ pw.length) :
    (signup s email pw un fn ln).1.status = 201 ∧
    (∀ kv ∈ (signup s email pw un fn ln).1.body, kv.1 ≠ "password") ∧
    ∃ u, (signup s email pw un fn ln).2.users.find? (fun v => v.email == email) =
           some u ∧
         checkPassword u.passwordHash pw = true := by
  have hlt : ¬ pw.length < 5 := by omega
  unfold signup
  rw [hem, hun]
  rw [if_neg (by simp), if_neg hlt]
  refine ⟨rfl, ?_, ?_⟩
  · intro kv hkv
    simp only [List.mem_cons, List.not_mem_nil, or_false] at hkv
    rcases hkv with h | h | h | h | h <;> subst h <;> simp
  · refine ⟨{ id := nextId s, email := email, username := un
              passwordHash := hashPassword pw, firstName := fn
              lastName := ln }, ?_, ?_⟩
    · rw [List.find?_append,
        List.find?_eq_none.mpr (by simpa [List.any_eq_false] using hem)]
      simp only [Option.none_or]
      exact List.find?_cons_of_pos _ (by simp)
    · simp [checkPassword]

/-- Witness for C1 at a concrete fresh signup on the empty store. -/
theorem signup_fresh_success_witness :
    (signup emptyStore "test@example.com" "testpass123" "Test Name" "" "").1.status =
      201 ∧
    (∀ kv ∈ (signup emptyStore "test@example.com" "testpass123" "Test Name" "" "").1.body,
       kv.1 ≠ "password") ∧
    ∃ u, (signup emptyStore "test@example.com" "testpass123" "Test Name" "" "").2.users.find?
           (fun v => v.email == "test@example.com") = some u ∧
         checkPassword u.passwordHash "testpass123" = true :=
  signup_fresh_success emptyStore "test@example.com" "testpass123" "Test Name" "" ""
    (by decide) (by decide) (by decide)

/-- C3: every failing signup is atomic — an already-registered email
gives 400 with the store unchanged, and a password shorter than 5
characters gives 400 with the store unchanged. -/
theorem signup_failure_atomic (s : Store) (email pw un fn ln : String) :
    (s.users.any (fun u => u.email == email) = true →
      (signup s email pw un fn ln).1.status = 400 ∧
      (signup s email pw un fn ln).2 = s) ∧
    (pw.length < 5 →
      (signup s email pw un fn ln).1.status = 400 ∧
      (signup s email pw un fn ln).2 = s) := by
  unfold signup
  constructor
  · intro h
    rw [if_pos (by rw [h]; rfl)]
    exact ⟨rfl, rfl⟩
  · intro h
    by_cases hd : (s.users.any (fun u => u.email == email) ||
        s.users.any (fun u => u.username == un)) = true
    · rw [if_pos hd]
      exact ⟨rfl, rfl⟩
    · rw [if_neg hd, if_pos h]
      exact ⟨rfl, rfl⟩

/-- Witness for C3: duplicate email and short password both rejected
on a concrete one-user store, leaving it unchanged. -/
theorem signup_failure_atomic_witness :
    ((signup (signup emptyStore "test@example.com" "testpass123" "Test Name" "" "").2
        "test@example.com" "other12345" "Other" "" "").1.status = 400 ∧
     (signup (signup emptyStore "test@example.com" "testpass123" "Test Name" "" "").2
        "test@example.com" "other12345" "Other" "" "").2 =
       (signup emptyStore "test@example.com" "testpass123" "Test Name" "" "").2) ∧
    ((signup emptyStore "fresh@example.com" "pw" "Fresh" "" "").1.status = 400 ∧
     (signup emptyStore "fresh@example.com" "pw" "Fresh" "" "").2 = emptyStore) :=
  ⟨(signup_failure_atomic
      (signup emptyStore "test@example.com" "testpass123" "Test Name" "" "").2
      "test@example.com" "other12345" "Other" "" "").1 (by decide),
   (signup_failure_atomic emptyStore "fresh@example.com" "pw" "Fresh" "" "").2
      (by decide)⟩

/-- C2: signin returns 200 with both an access and a refresh token in
the body exactly when the email is registered and the password is
correct; a non-blank wrong password or unknown email gives 401; a
blank password fails field validation with 400 (taking precedence, as
in the observed test where a blank password for an unregistered email
still yields 400). -/
theorem signin_characterization (s : Store) (email pw : String) :
    (pw = "" → (signin s email pw).status = 400) ∧
    (pw ≠ "" →
      (((signin s email pw).status = 200 ∧
        "access" ∈ (signin s email pw).body.map Prod.fst ∧
        "refresh" ∈ (signin s email pw).body.map Prod.fst) ↔
       ∃ u, s.users.find? (fun x => x.email == email) = some u ∧
            checkPassword u.passwordHash pw = true)) ∧
    (pw ≠ "" ∧ (s.users.find? (fun x => x.email == email) = none ∨
       ∃ u, s.users.find? (fun x => x.email == email) = some u ∧
            checkPassword u.passwordHash pw = false) →
      (signin s email pw).status = 401) := by
  unfold signin
  by_cases hb : pw = ""
  · subst hb
    rw [if_pos (by simp)]
    refine ⟨fun _ => rfl, fun h => absurd rfl h, ?_⟩
    rintro ⟨h, -⟩
    exact absurd rfl h
  · rw [if_neg (by simpa using hb)]
    cases hf : s.users.find? (fun x => x.email == email) with
    | none =>
      refine ⟨fun h => absurd h hb, fun _ => ?_, fun _ => rfl⟩
      simp
    | some u =>
      dsimp only
      by_cases hc : checkPassword u.passwordHash pw = true
      · rw [if_pos hc]
        refine ⟨fun h => absurd h hb, fun _ => ?_, ?_⟩
        · constructor
          · exact fun _ => ⟨u, rfl, hc⟩
          · exact fun _ => ⟨rfl, by simp, by simp⟩
        · rintro ⟨-, h | ⟨v, hv, hcv⟩⟩
          · exact Option.noConfusion h
          · rw [Option.some.injEq] at hv
            rw [← hv, hc] at hcv
            exact Bool.noConfusion hcv
      · rw [if_neg hc]
        refine ⟨fun h => absurd h hb, fun _ => ?_, fun _ => rfl⟩
        constructor
        · rintro ⟨h200, -⟩
          exact absurd h200 (by simp)
        · rintro ⟨v, hv, hcv⟩
          rw [Option.some.injEq] at hv
          rw [← hv] at hcv
          exact absurd hcv hc

/-- One registered user, persisted through `signup` on the empty
store; used by the signin witnesses. -/
def oneUserStore : Store :=
  (signup emptyStore "test@example.com" "testpass123" "Test Name" "" "").2

/-- Witness for C2 at a concrete store with one registered user and
the correct credentials. -/
theorem signin_characterization_witness :
    (signin oneUserStore "test@example.com" "testpass123").status = 200 ∧
    "access" ∈ (signin oneUserStore "test@example.com" "testpass123").body.map Prod.fst ∧
    "refresh" ∈ (signin oneUserStore "test@example.com" "testpass123").body.map Prod.fst :=
  ((signin_characterization oneUserStore "test@example.com" "testpass123").2.1
      (by decide)).mpr
    ⟨{ id := 1, email := "test@example.com", username := "Test Name"
       passwordHash := hashPassword "testpass123", firstName := "", lastName := "" },
     by decide, by decide⟩

/-- C9: every failing signin (status 400 or 401) issues no token of
any kind — neither `access`, `refresh` nor a `token` field appears in
the error body. -/
theorem signin_failure_no_tokens (s : Store) (email pw : String)
    (h : (signin s email pw).status = 400 ∨ (signin s email pw).status = 401) :
    "access" ∉ (signin s email pw).body.map Prod.fst ∧
    "refresh" ∉ (signin s email pw).body.map Prod.fst ∧
    "token" ∉ (signin s email pw).body.map Prod.fst := by
  unfold signin at h ⊢
  by_cases hb : pw = ""
  · rw [if_pos (by simp [hb])] at h ⊢
    simp
  · rw [if_neg (by simpa using hb)] at h ⊢
    cases hf : s.users.find? (fun x => x.email == email) with
    | none => simp
    | some u =>
      rw [hf] at h
      dsimp only at h ⊢
      by_cases hc : checkPassword u.passwordHash pw = true
      · rw [if_pos hc] at h ⊢
        rcases h with h | h <;> exact absurd h (by simp)
      · rw [if_neg hc] at h ⊢
        simp

/-- Witness for C9 at a concrete failing signin: unknown email on the
empty store, non-blank password, status 401. -/
theorem signin_failure_no_tokens_witness :
    "access" ∉ (signin emptyStore "nobody@example.com" "wrongpw").body.map Prod.fst ∧
    "refresh" ∉ (signin emptyStore "nobody@example.com" "wrongpw").body.map Prod.fst ∧
    "token" ∉ (signin emptyStore "nobody@example.com" "wrongpw").body.map Prod.fst :=
  signin_failure_no_tokens emptyStore "nobody@example.com" "wrongpw" (Or.inr (by decide))

/-- C7: every GET of the profile or user-detail endpoint without
authentication returns status 401 with an empty body — the user's data
is never returned. -/
theorem unauthenticated_requests_rejected (s : Store) (username : String) :
    (getProfile s none).status = 401 ∧ (getProfile s none).body = [] ∧
    (getUserDetail s none username).status = 401 ∧
    (getUserDetail s none username).body = [] :=
  ⟨rfl, rfl, rfl, rfl⟩

/-- C6: for authenticated requests, the user-detail body carries
exactly the fields username, email, id, firstName, lastName, questions
and answers (the latter two as lists, empty when the user owns none),
the profile body carries exactly the same fields minus questions and
answers, and the password is never serialized in either. -/
theorem serialized_field_sets (s : Store) (uid : Nat) (username : String)
    (u v : User)
    (hd : s.users.find? (fun x => x.username == username) = some u)
    (hp : s.users.find? (fun x => x.id == uid) = some v) :
    (getUserDetail s (some uid) username).body.map Prod.fst =
      ["username", "email", "id", "firstName", "lastName",
       "questions", "answers"] ∧
    (getProfile s (some uid)).body.map Prod.fst =
      ["username", "email", "id", "firstName", "lastName"] ∧
    "password" ∉ (getUserDetail s (some uid) username).body.map Prod.fst ∧
    "password" ∉ (getProfile s (some uid)).body.map Prod.fst ∧
    ("questions", FieldValue.strList (questionSlugsOf s u.id)) ∈
      (getUserDetail s (some uid) username).body ∧
    ("answers", FieldValue.strList (answerUuidsOf s u.id)) ∈
      (getUserDetail s (some uid) username).body ∧
    ((∀ q ∈ s.questions, q.ownerId ≠ u.id) →
      ("questions", FieldValue.strList []) ∈
        (getUserDetail s (some uid) username).body) ∧
    ((∀ a ∈ s.answers, a.ownerId ≠ u.id) →
      ("answers", FieldValue.strList []) ∈
        (getUserDetail s (some uid) username).body) := by
  unfold getUserDetail getProfile
  dsimp only
  rw [hd, hp]
  dsimp only
  refine ⟨rfl, rfl, by simp [userDetailBody], by simp [profileBody],
    by simp [userDetailBody], by simp [userDetailBody], ?_, ?_⟩
  · intro hq
    have hz : questionSlugsOf s u.id = [] := by
      unfold questionSlugsOf
      rw [List.filter_eq_nil_iff.mpr (fun q hqm => by simpa using hq q hqm)]
      rfl
    simp [userDetailBody, hz]
  · intro ha
    have hz : answerUuidsOf s u.id = [] := by
      unfold answerUuidsOf
      rw [List.filter_eq_nil_iff.mpr (fun a ham => by simpa using ha a ham)]
      rfl
    simp [userDetailBody, hz]

/-- Witness for C6 at the concrete one-user store, the registered
user authenticated as themselves. -/
theorem serialized_field_sets_witness :
    (getUserDetail oneUserStore (some 1) "Test Name").body.map Prod.fst =
      ["username", "email", "id", "firstName", "lastName",
       "questions", "answers"] ∧
    (getProfile oneUserStore (some 1)).body.map Prod.fst =
      ["username", "email", "id", "firstName", "lastName"] ∧
    "password" ∉ (getUserDetail oneUserStore (some 1) "Test Name").body.map Prod.fst ∧
    "password" ∉ (getProfile oneUserStore (some 1)).body.map Prod.fst := by
  have h := serialized_field_sets oneUserStore 1 "Test Name"
    { id := 1, email := "test@example.com", username := "Test Name"
      passwordHash := hashPassword "testpass123", firstName := "", lastName := "" }
    { id := 1, email := "test@example.com", username := "Test Name"
      passwordHash := hashPassword "testpass123", firstName := "", lastName := "" }
    (by decide) (by decide)
  exact ⟨h.1, h.2.1, h.2.2.1, h.2.2.2.1⟩

/-- The operation `follow` never changes the user list. -/
theorem follow_users_eq (s : Store) (curId : Nat) (tname : String) :
    (follow s curId tname).2.users = s.users := by
  unfold follow
  cases s.users.find? (fun u => u.username == tname) with
  | none => rfl
  | some t =>
    dsimp only
    split_ifs <;> rfl

/-- The operation `unfollow` never changes the user list. -/
theorem unfollow_users_eq (s : Store) (curId : Nat) (tname : String) :
    (unfollow s curId tname).2.users = s.users := by
  unfold unfollow
  cases s.users.find? (fun u => u.username == tname) with
  | none => rfl
  | some t => rfl

/-- When the target username resolves, `unfollow` returns 204 and the
edge to the target is absent afterwards. -/
theorem unfollow_edge_absent (s : Store) (curId : Nat) (tname : String)
    (t : User)
    (hfind : s.users.find? (fun x => x.username == tname) = some t) :
    (unfollow s curId tname).1.status = 204 ∧
    (curId, t.id) ∉ (unfollow s curId tname).2.follows := by
  unfold unfollow
  rw [hfind]
  dsimp only
  refine ⟨rfl, ?_⟩
  simp [List.mem_filter]

/-- C5: for an authenticated user and a target username that resolves
to a different user, `follow` returns 200 and makes the edge present
(adding it only if absent), `unfollow` after it returns 204 and makes
the edge absent, and a second `unfollow` still returns 204 even though
the edge is already gone. -/
theorem follow_unfollow_graph (s : Store) (curId : Nat) (tname : String)
    (t : User)
    (hfind : s.users.find? (fun x => x.username == tname) = some t)
    (hne : t.id ≠ curId) :
    (follow s curId tname).1.status = 200 ∧
    (curId, t.id) ∈ (follow s curId tname).2.follows ∧
    ((curId, t.id) ∈ s.follows → (follow s curId tname).2 = s) ∧
    (unfollow (follow s curId tname).2 curId tname).1.status = 204 ∧
    (curId, t.id) ∉ (unfollow (follow s curId tname).2 curId tname).2.follows ∧
    (unfollow (unfollow (follow s curId tname).2 curId tname).2 curId tname).1.status =
      204 := by
  have hfind1 : (follow s curId tname).2.users.find?
      (fun x => x.username == tname) = some t := by
    rw [follow_users_eq]; exact hfind
  have hunf := unfollow_edge_absent (follow s curId tname).2 curId tname t hfind1
  have hfind2 : (unfollow (follow s curId tname).2 curId tname).2.users.find?
      (fun x => x.username == tname) = some t := by
    rw [unfollow_users_eq, follow_users_eq]; exact hfind
  have hunf2 := unfollow_edge_absent
    (unfollow (follow s curId tname).2 curId tname).2 curId tname t hfind2
  refine ⟨?_, ?_, ?_, hunf.1, hunf.2, hunf2.1⟩
  · unfold follow
    rw [hfind]
    dsimp only
    rw [if_neg (by simp [hne])]
    split_ifs <;> rfl
  · unfold follow
    rw [hfind]
    dsimp only
    rw [if_neg (by simp [hne])]
    by_cases hmem : s.follows.contains (curId, t.id) = true
    · rw [if_pos hmem]
      simpa using hmem
    · rw [if_neg hmem]
      simp
  · intro hmem
    unfold follow
    rw [hfind]
    dsimp only
    rw [if_neg (by simp [hne]), if_pos (by simpa using hmem)]

/-- Two registered users, persisted through `signup`; used by the
follow/unfollow witness. -/
def twoUserStore : Store :=
  (signup oneUserStore "testemail2@gmail.com" "testpass123" "Test Name 2" "" "").2

/-- Witness for C5: user 1 follows and unfollows user 2 in the
concrete two-user store. -/
theorem follow_unfollow_graph_witness :
    (follow twoUserStore 1 "Test Name 2").1.status = 200 ∧
    (1, 2) ∈ (follow twoUserStore 1 "Test Name 2").2.follows ∧
    (unfollow (follow twoUserStore 1 "Test Name 2").2 1 "Test Name 2").1.status = 204 ∧
    (unfollow (unfollow (follow twoUserStore 1 "Test Name 2").2 1 "Test Name 2").2
        1 "Test Name 2").1.status = 204 := by
  have h := follow_unfollow_graph twoUserStore 1 "Test Name 2"
    { id := 2, email := "testemail2@gmail.com", username := "Test Name 2"
      passwordHash := hashPassword "testpass123", firstName := "", lastName := "" }
    (by decide) (by decide)
  exact ⟨h.1, h.2.1, h.2.2.2.1, h.2.2.2.2.2⟩

/-- Looking up by UUID after `setLikes` finds the first matching
answer with its like-set replaced. -/
theorem find_setLikes (s : Store) (uuid : String) (likes : List Nat)
    (a : Answer)
    (hf : s.answers.find? (fun x => x.uuid == uuid) = some a) :
    (setLikes s uuid likes).answers.find? (fun x => x.uuid == uuid) =
      some { a with likes := likes } := by
  unfold setLikes
  dsimp only
  rw [List.find?_map]
  have hcomp : ((fun x : Answer => x.uuid == uuid) ∘
      (fun b : Answer => if b.uuid == uuid then { b with likes := likes } else b)) =
      (fun x : Answer => x.uuid == uuid) := by
    funext x
    by_cases hx : x.uuid = uuid <;> simp [hx]
  rw [hcomp, hf]
  have hpa := List.find?_some hf
  dsimp only [Option.map]
  rw [if_pos hpa]

/-- One application of `toggleLike`: the resulting store replaces the
like-set at the UUID, removing the user if present and appending them
if absent. -/
theorem toggleLike_result (s : Store) (uuid : String) (uid : Nat) (a : Answer)
    (hf : s.answers.find? (fun x => x.uuid == uuid) = some a) :
    (toggleLike s uuid uid).2 =
      setLikes s uuid (if uid ∈ a.likes then a.likes.filter (fun x => x ≠ uid)
                       else a.likes ++ [uid]) := by
  unfold toggleLike
  rw [hf]
  dsimp only
  by_cases hmem : a.likes.contains uid = true
  · rw [if_pos hmem, if_pos (by simpa using hmem)]
  · rw [if_neg hmem, if_neg (by simpa using hmem)]

/-- Removing one occurrence from a duplicate-free list shortens it by
exactly one. -/
theorem filter_ne_length_of_mem (l : List Nat) (x : Nat) (hnd : l.Nodup)
    (hx : x ∈ l) :
    (l.filter (fun y => y ≠ x)).length + 1 = l.length := by
  induction l with
  | nil => cases hx
  | cons a t ih =>
    rw [List.nodup_cons] at hnd
    rcases List.mem_cons.mp hx with h | h
    · subst h
      rw [List.filter_cons_of_neg (by simp)]
      rw [List.filter_eq_self.mpr
        (fun y hy => by simp; exact fun he => hnd.1 (he ▸ hy))]
      rfl
    · have hax : a ≠ x := fun he => hnd.1 (he ▸ h)
      rw [List.filter_cons_of_pos (by simpa using hax)]
      have hih := ih hnd.2 h
      simp only [List.length_cons]
      omega

/-- Filtering out an element that is not in the list changes
nothing. -/
theorem filter_ne_of_not_mem (l : List Nat) (x : Nat) (hx : x ∉ l) :
    l.filter (fun y => y ≠ x) = l :=
  List.filter_eq_self.mpr (fun a ha => by simp; exact fun he => hx (he ▸ ha))

/-- C4: toggling a like twice by the same user restores the answer's
like state — after the double toggle the user's membership in the
like-set and the like count equal their original values, while the
first toggle inverts the membership. -/
theorem toggleLike_twice_roundtrip (s : Store) (uuid : String) (uid : Nat)
    (a : Answer)
    (hf : s.answers.find? (fun x => x.uuid == uuid) = some a)
    (hnd : a.likes.Nodup) :
    (∃ a₁, (toggleLike s uuid uid).2.answers.find?
         (fun x => x.uuid == uuid) = some a₁ ∧
       (uid ∈ a₁.likes ↔ uid ∉ a.likes)) ∧
    (∃ a₂, (toggleLike (toggleLike s uuid uid).2 uuid uid).2.answers.find?
         (fun x => x.uuid == uuid) = some a₂ ∧
       (uid ∈ a₂.likes ↔ uid ∈ a.likes) ∧
       a₂.likes.length = a.likes.length) := by
  have hstep := toggleLike_result s uuid uid a hf
  by_cases hm : uid ∈ a.likes
  · rw [if_pos hm] at hstep
    have hfind1 := find_setLikes s uuid (a.likes.filter (fun x => x ≠ uid)) a hf
    rw [← hstep] at hfind1
    have hnotin1 : uid ∉ a.likes.filter (fun x => x ≠ uid) := by
      simp [List.mem_filter]
    have hstep2 := toggleLike_result (toggleLike s uuid uid).2 uuid uid
      { a with likes := a.likes.filter (fun x => x ≠ uid) } hfind1
    rw [if_neg (by simp [List.mem_filter])] at hstep2
    have hfind2 := find_setLikes (toggleLike s uuid uid).2 uuid
      (({ a with likes := a.likes.filter (fun x => x ≠ uid) } : Answer).likes ++ [uid])
      { a with likes := a.likes.filter (fun x => x ≠ uid) } hfind1
    rw [← hstep2] at hfind2
    refine ⟨⟨_, hfind1, ?_⟩, ⟨_, hfind2, ?_, ?_⟩⟩
    · simpa [hnotin1] using hm
    · simp [hm]
    · simp only [List.length_append, List.length_cons, List.length_nil]
      exact filter_ne_length_of_mem a.likes uid hnd hm
  · rw [if_neg hm] at hstep
    have hfind1 := find_setLikes s uuid (a.likes ++ [uid]) a hf
    rw [← hstep] at hfind1
    have hin1 : uid ∈ ({ a with likes := a.likes ++ [uid] } : Answer).likes := by
      simp
    have hstep2 := toggleLike_result (toggleLike s uuid uid).2 uuid uid
      { a with likes := a.likes ++ [uid] } hfind1
    rw [if_pos hin1] at hstep2
    have hfind2 := find_setLikes (toggleLike s uuid uid).2 uuid
      (({ a with likes := a.likes ++ [uid] } : Answer).likes.filter (fun x => x ≠ uid))
      { a with likes := a.likes ++ [uid] } hfind1
    rw [← hstep2] at hfind2
    have hback : (({ a with likes := a.likes ++ [uid] } : Answer).likes.filter
        (fun x => x ≠ uid)) = a.likes := by
      show (a.likes ++ [uid]).filter (fun x => x ≠ uid) = a.likes
      rw [List.filter_append, filter_ne_of_not_mem a.likes uid hm]
      simp
    rw [hback] at hfind2
    refine ⟨⟨_, hfind1, ?_⟩, ⟨_, hfind2, ?_, ?_⟩⟩
    · simp [hm]
    · simp
    · simp

/-- A store with one user, one question and one answer (no likes
yet); used by the toggle-like witness. -/
def answerStore : Store :=
  (createAnswer (createQuestion oneUserStore "first-question" "First" "body" 1).2
    "first-question" "an answer" 1 "123e4567-e89b-12d3-a456-426614174000").2

/-- The answer persisted in `answerStore`. -/
def sampleAnswer : Answer :=
  { uuid := "123e4567-e89b-12d3-a456-426614174000", body := "an answer"
    ownerId := 1, questionSlug := "first-question", likes := [] }

/-- Witness for C4: user 1 toggles a like twice on the concrete
answer, landing back at the original like state. -/
theorem toggleLike_twice_roundtrip_witness :
    (∃ a₁, (toggleLike answerStore "123e4567-e89b-12d3-a456-426614174000" 1).2.answers.find?
         (fun x => x.uuid == "123e4567-e89b-12d3-a456-426614174000") = some a₁ ∧
       (1 ∈ a₁.likes ↔ 1 ∉ sampleAnswer.likes)) ∧
    (∃ a₂, (toggleLike (toggleLike answerStore "123e4567-e89b-12d3-a456-426614174000" 1).2
           "123e4567-e89b-12d3-a456-426614174000" 1).2.answers.find?
         (fun x => x.uuid == "123e4567-e89b-12d3-a456-426614174000") = some a₂ ∧
       (1 ∈ a₂.likes ↔ 1 ∈ sampleAnswer.likes) ∧
       a₂.likes.length = sampleAnswer.likes.length) :=
  toggleLike_twice_roundtrip answerStore "123e4567-e89b-12d3-a456-426614174000" 1
    sampleAnswer (by decide) (by decide)

/-- The operation `signup` preserves the data-model invariants. -/
theorem signup_preserves_inv (s : Store) (h : Inv s)
    (email pw un fn ln : String) :
    Inv (signup s email pw un fn ln).2 := by
  unfold signup
  by_cases h1 : (s.users.any (fun u => u.email == email) ||
      s.users.any (fun u => u.username == un)) = true
  · rw [if_pos h1]; exact h
  · rw [if_neg h1]
    by_cases h2 : pw.length < 5
    · rw [if_pos h2]; exact h
    · rw [if_neg h2]
      have ha1 : ∀ u ∈ s.users, ¬ u.email = email := by
        intro u hu he'
        exact h1 (by
          rw [Bool.or_eq_true]
          exact Or.inl (List.any_eq_true.mpr ⟨u, hu, by simp [he']⟩))
      have ha2 : ∀ u ∈ s.users, ¬ u.username = un := by
        intro u hu he'
        exact h1 (by
          rw [Bool.or_eq_true]
          exact Or.inr (List.any_eq_true.mpr ⟨u, hu, by simp [he']⟩))
      obtain ⟨he, hu, hq, hfo, hl⟩ := h
      dsimp only
      refine ⟨?_, ?_, hq, hfo, hl⟩
      · rw [List.map_append, List.nodup_append]
        refine ⟨he, by simp, ?_⟩
        intro x hx hx2
        rcases List.mem_map.mp hx with ⟨u, hum, hue⟩
        have hxe : x = email := by simpa using hx2
        exact ha1 u hum (by rw [hue, hxe])
      · rw [List.map_append, List.nodup_append]
        refine ⟨hu, by simp, ?_⟩
        intro x hx hx2
        rcases List.mem_map.mp hx with ⟨u, hum, hue⟩
        have hxe : x = un := by simpa using hx2
        exact ha2 u hum (by rw [hue, hxe])

/-- The operation `follow` preserves the data-model invariants. -/
theorem follow_preserves_inv (s : Store) (h : Inv s) (curId : Nat)
    (tname : String) :
    Inv (follow s curId tname).2 := by
  unfold follow
  cases hf : s.users.find? (fun u => u.username == tname) with
  | none => exact h
  | some t =>
    dsimp only
    by_cases hself : (t.id == curId) = true
    · rw [if_pos hself]; exact h
    · rw [if_neg hself]
      by_cases hmem : s.follows.contains (curId, t.id) = true
      · rw [if_pos hmem]; exact h
      · rw [if_neg hmem]
        obtain ⟨he, hu, hq, hfo, hl⟩ := h
        refine ⟨he, hu, hq, ?_, hl⟩
        intro e hee
        rcases List.mem_append.mp hee with hh | hh
        · exact hfo e hh
        · have hee2 : e = (curId, t.id) := by simpa using hh
          subst hee2
          have : ¬ t.id = curId := by simpa using hself
          exact fun hc => this hc.symm

/-- The operation `unfollow` preserves the data-model invariants. -/
theorem unfollow_preserves_inv (s : Store) (h : Inv s) (curId : Nat)
    (tname : String) :
    Inv (unfollow s curId tname).2 := by
  unfold unfollow
  cases hf : s.users.find? (fun u => u.username == tname) with
  | none => exact h
  | some t =>
    obtain ⟨he, hu, hq, hfo, hl⟩ := h
    exact ⟨he, hu, hq,
      fun e hee => hfo e (List.mem_filter.mp hee).1, hl⟩

/-- The operation `toggleLike` preserves the data-model invariants. -/
theorem toggleLike_preserves_inv (s : Store) (h : Inv s) (uuid : String)
    (uid : Nat) :
    Inv (toggleLike s uuid uid).2 := by
  cases hf : s.answers.find? (fun x => x.uuid == uuid) with
  | none =>
    unfold toggleLike
    rw [hf]
    exact h
  | some a =>
    have hnda : a.likes.Nodup := h.2.2.2.2 a (List.mem_of_find?_eq_some hf)
    rw [toggleLike_result s uuid uid a hf]
    obtain ⟨he, hu, hq, hfo, hl⟩ := h
    have hndnew : (if uid ∈ a.likes then a.likes.filter (fun x => x ≠ uid)
        else a.likes ++ [uid]).Nodup := by
      by_cases hm : uid ∈ a.likes
      · rw [if_pos hm]
        exact hnda.filter _
      · rw [if_neg hm]
        rw [List.nodup_append]
        refine ⟨hnda, by simp, ?_⟩
        intro x hx hx2
        have hxe : x = uid := by simpa using hx2
        exact hm (hxe ▸ hx)
    unfold setLikes
    refine ⟨he, hu, ?_, hfo, ?_⟩
    · dsimp only
      intro b hb
      rcases List.mem_map.mp hb with ⟨c, hc, hbc⟩
      have hslug : b.questionSlug = c.questionSlug := by
        rw [← hbc]
        by_cases hcu : c.uuid = uuid <;> simp [hcu]
      rw [hslug]
      exact hq c hc
    · dsimp only
      intro b hb
      rcases List.mem_map.mp hb with ⟨c, hc, hbc⟩
      by_cases hcu : c.uuid = uuid
      · rw [← hbc]
        simpa [hcu] using hndnew
      · rw [← hbc]
        simpa [hcu] using hl c hc

/-- The operation `createQuestion` preserves the data-model invariants. -/
theorem createQuestion_preserves_inv (s : Store) (h : Inv s)
    (slug title bodyText : String) (oid : Nat) :
    Inv (createQuestion s slug title bodyText oid).2 := by
  unfold createQuestion
  by_cases hq : s.questions.any (fun q => q.slug == slug) = true
  · rw [if_pos hq]; exact h
  · rw [if_neg hq]
    obtain ⟨he, hu, hqr, hfo, hl⟩ := h
    refine ⟨he, hu, ?_, hfo, hl⟩
    intro b hb
    rcases hqr b hb with ⟨q, hq1, hq2⟩
    exact ⟨q, List.mem_append_left _ hq1, hq2⟩

/-- The operation `createAnswer` preserves the data-model invariants. -/
theorem createAnswer_preserves_inv (s : Store) (h : Inv s)
    (slug bodyText : String) (oid : Nat) (uuid : String) :
    Inv (createAnswer s slug bodyText oid uuid).2 := by
  unfold createAnswer
  by_cases hq : s.questions.any (fun q => q.slug == slug) = true
  · rw [if_pos hq]
    obtain ⟨he, hu, hqr, hfo, hl⟩ := h
    refine ⟨he, hu, ?_, hfo, ?_⟩
    · intro b hb
      rcases List.mem_append.mp hb with hh | hh
      · exact hqr b hh
      · have hb2 : b = { uuid := uuid, body := bodyText, ownerId := oid
                         questionSlug := slug, likes := [] } := by
          simpa using hh
        subst hb2
        rcases List.any_eq_true.mp hq with ⟨q, hq1, hq2⟩
        exact ⟨q, hq1, by simpa using hq2⟩
    · intro b hb
      rcases List.mem_append.mp hb with hh | hh
      · exact hl b hh
      · have hb2 : b = { uuid := uuid, body := bodyText, ownerId := oid
                         questionSlug := slug, likes := [] } := by
          simpa using hh
        subst hb2
        simp
  · rw [if_neg hq]; exact h

/-- C8: every modelled operation — signup, follow, unfollow,
toggleLike, createQuestion and createAnswer — preserves the data-model
invariants: unique emails and usernames, answers referencing existing
questions, no self-follow edge, and duplicate-free like-sets. -/
theorem operations_preserve_invariants (s : Store) (h : Inv s)
    (email pw un fn ln tname slug title bodyText uuid : String)
    (curId oid uid : Nat) :
    Inv (signup s email pw un fn ln).2 ∧
    Inv (follow s curId tname).2 ∧
    Inv (unfollow s curId tname).2 ∧
    Inv (toggleLike s uuid uid).2 ∧
    Inv (createQuestion s slug title bodyText oid).2 ∧
    Inv (createAnswer s slug bodyText oid uuid).2 :=
  ⟨signup_preserves_inv s h email pw un fn ln,
   follow_preserves_inv s h curId tname,
   unfollow_preserves_inv s h curId tname,
   toggleLike_preserves_inv s h uuid uid,
   createQuestion_preserves_inv s h slug title bodyText oid,
   createAnswer_preserves_inv s h slug bodyText oid uuid⟩

/-- Witness for C8: all six operations applied on the empty store (a
concrete invariant-satisfying state) keep the invariants. -/
theorem operations_preserve_invariants_witness :
    Inv (signup emptyStore "test@example.com" "testpass123" "Test Name" "" "").2 ∧
    Inv (follow emptyStore 1 "Test Name 2").2 ∧
    Inv (unfollow emptyStore 1 "Test Name 2").2 ∧
    Inv (toggleLike emptyStore "123e4567-e89b-12d3-a456-426614174000" 1).2 ∧
    Inv (createQuestion emptyStore "first-question" "First" "body" 1).2 ∧
    Inv (createAnswer emptyStore "first-question" "an answer" 1
      "123e4567-e89b-12d3-a456-426614174000").2 :=
  operations_preserve_invariants emptyStore
    (by constructor <;> simp [emptyStore])
    "test@example.com" "testpass123" "Test Name" "" "" "Test Name 2"
    "first-question" "First" "body" "123e4567-e89b-12d3-a456-426614174000"
    1 1 1

/-- C10: routing enforces the path converters of `api/urls.py` — a
request only reaches the answer-detail or answer-like handler when its
dynamic segment is a well-formed (lowercase, hyphenated) UUID, and
only reaches the answer-list or answer-create handler when the segment
is slug-shaped; anything else never resolves to a handler. -/
theorem route_converter_safety (segs : List String) (x : String) :
    ((route segs = some (.answerDetail x) ∨ route segs = some (.answerLike x)) →
      isUuidStr x = true) ∧
    ((route segs = some (.answerList x) ∨ route segs = some (.answerCreate x)) →
      isSlugStr x = true) := by
  unfold route
  by_cases hq : (segs.headD "" == "questions") = true
  · rw [if_pos hq]
    constructor <;> rintro (h | h) <;> simp at h
  · rw [if_neg hq]
    rcases segs with - | ⟨p, - | ⟨sx, - | ⟨r, rest⟩⟩⟩
    · constructor <;> rintro (h | h) <;> simp at h
    · constructor <;> rintro (h | h) <;> simp at h
    · dsimp only
      split_ifs with h1 h2 h3 h4 h5 h6 h7 h8 <;>
        constructor <;> rintro (h | h) <;> simp_all
    · constructor <;> rintro (h | h) <;> simp at h

/-- Witness for C10: a concrete UUID path reaches the answer-detail
handler with a well-formed UUID, and a concrete slug path reaches the
answer-list handler with a slug-shaped segment. -/
theorem route_converter_safety_witness :
    isUuidStr "123e4567-e89b-12d3-a456-426614174000" = true ∧
    isSlugStr "my-question" = true :=
  ⟨(route_converter_safety
      ["answers-detail", "123e4567-e89b-12d3-a456-426614174000"]
      "123e4567-e89b-12d3-a456-426614174000").1 (Or.inl (by decide)),
   (route_converter_safety ["questions-answers", "my-question"]
      "my-question").2 (Or.inl (by decide))⟩

end QuotaClone
